import Mathlib

/-
Verification development for the crypto RSI dashboard's analysis core.
Numbers are modelled as exact rationals (ℚ); JavaScript `number | null`
becomes `Option ℚ`.  Each definition is a direct translation of the
corresponding TypeScript function.
-/

/-- Successive differences `closes[i] - closes[i-1]` for `i = 1 .. length-1`. -/
def diffs (closes : List ℚ) : List ℚ :=
  (closes.tail.zip closes).map fun p => p.1 - p.2

/-- One smoothing step of the scalar RSI loop (`calculateRSI`, rsi module):
`if change > 0` then gain is folded in, otherwise the (nonpositive) change is
subtracted from the loss average. -/
def smoothStep (period : ℕ) (s : ℚ × ℚ) (change : ℚ) : ℚ × ℚ :=
  if change > 0 then
    ((s.1 * ((period : ℚ) - 1) + change) / period, (s.2 * ((period : ℚ) - 1)) / period)
  else
    ((s.1 * ((period : ℚ) - 1)) / period, (s.2 * ((period : ℚ) - 1) - change) / period)

/-- Initial average gain / average loss over the first `period` differences
(shared verbatim by `calculateRSI` and `calculateRSIArray`). -/
def initAvg (closes : List ℚ) (period : ℕ) : ℚ × ℚ :=
  ((((diffs closes).take period).map (fun c => if c > 0 then c else 0)).sum / period,
   (((diffs closes).take period).map (fun c => if c > 0 then 0 else -c)).sum / period)

/-- Final `(avgGain, avgLoss)` state of the smoothing loop: the initial
averages folded through `smoothStep` over the differences past the warm-up. -/
def finalAvg (closes : List ℚ) (period : ℕ) : ℚ × ℚ :=
  ((diffs closes).drop period).foldl (smoothStep period) (initAvg closes period)

/-- Scalar Wilder RSI, translated from `calculateRSI` in the rsi module:
`null` when fewer than `period+1` closes, otherwise smooth the averages over
the remaining differences and map through `100 - 100/(1+rs)` (with the
`avgLoss == 0 ↦ 100` special case). -/
def calculateRSI (closes : List ℚ) (period : ℕ) : Option ℚ :=
  if closes.length < period + 1 then none
  else if (finalAvg closes period).2 = 0 then some 100
  else some (100 - 100 / (1 + (finalAvg closes period).1 / (finalAvg closes period).2))

/-- One smoothing step of `calculateRSIArray` (divergence module): gain and
loss are split out of the change first, then folded into the running
averages. -/
def arrayStep (period : ℕ) (s : ℚ × ℚ) (change : ℚ) : ℚ × ℚ :=
  let gain := if change > 0 then change else 0
  let loss := if change < 0 then -change else 0
  ((s.1 * ((period : ℚ) - 1) + gain) / period, (s.2 * ((period : ℚ) - 1) + loss) / period)

/-- The per-state RSI readout used by `calculateRSIArray`:
`rs = avgLoss == 0 ? 100 : avgGain/avgLoss`, then `100 - 100/(1+rs)`.
Note: unlike the scalar form, a zero average loss yields `100 - 100/101`,
not `100`. -/
def rsiFromAvg (s : ℚ × ℚ) : ℚ :=
  let rs := if s.2 = 0 then 100 else s.1 / s.2
  100 - 100 / (1 + rs)

/-- Array Wilder RSI, translated from `calculateRSIArray`: empty when fewer
than `period+1` closes, otherwise one reading per smoothing state, starting
from the initial averages (the "first RSI" push) and then one per further
difference. -/
def calculateRSIArray (closes : List ℚ) (period : ℕ) : List ℚ :=
  if closes.length < period + 1 then []
  else
    (((diffs closes).drop period).scanl (arrayStep period) (initAvg closes period)).map rsiFromAvg

/-- Trend classification (signals module). -/
inductive TrendState
  | bull
  | bear
  | neutral
  deriving DecidableEq, Fintype

/-- Stretch classification (signals module). -/
inductive StretchState
  | oversold
  | overbought
  | neutral
  deriving DecidableEq, Fintype

/-- Trading bias (signals module). -/
inductive BiasType
  | long_only
  | short_only
  | no_trade
  deriving DecidableEq, Fintype

/-- Translated from `calculateTrendState`: `neutral` when RSI14 or RSI50 is
absent; otherwise bull when both are at least 50 and the relaxed RSI200 check
passes (absent counts as a pass), bear symmetrically, else neutral. -/
def calculateTrendState (rsi14 rsi50 rsi200 : Option ℚ) : TrendState :=
  match rsi14, rsi50 with
  | some r14, some r50 =>
    let rsi200Check : Bool := match rsi200 with | none => true | some r => decide (50 ≤ r)
    let rsi200BearCheck : Bool := match rsi200 with | none => true | some r => decide (r ≤ 50)
    if 50 ≤ r14 ∧ 50 ≤ r50 ∧ rsi200Check = true then .bull
    else if r14 ≤ 50 ∧ r50 ≤ 50 ∧ rsi200BearCheck = true then .bear
    else .neutral
  | _, _ => .neutral

/-- Translated from `calculateStretchState`: neutral when both readings are
absent, else oversold when RSI5 is at most 25 or RSI9 at most 30, else
overbought when RSI5 is at least 75 or RSI9 at least 70, else neutral. -/
def calculateStretchState (rsi5 rsi9 : Option ℚ) : StretchState :=
  if rsi5 = none ∧ rsi9 = none then .neutral
  else
    let isOversold := (match rsi5 with | some v => decide (v ≤ 25) | none => false) ||
                      (match rsi9 with | some v => decide (v ≤ 30) | none => false)
    let isOverbought := (match rsi5 with | some v => decide (75 ≤ v) | none => false) ||
                        (match rsi9 with | some v => decide (70 ≤ v) | none => false)
    if isOversold then .oversold
    else if isOverbought then .overbought
    else .neutral

/-- Translated from `detectBullFlip`: false on any absent reading, otherwise
an upward RSI5/RSI9 crossover confirmed by a rising RSI14. -/
def detectBullFlip (rsi5 rsi9 rsi5Prev rsi9Prev : Option ℚ)
    (rsi14Rising : Bool) : Bool :=
  match rsi5, rsi9, rsi5Prev, rsi9Prev with
  | some a, some b, some ap, some bp =>
    (decide (ap ≤ bp) && decide (a > b)) && rsi14Rising
  | _, _, _, _ => false

/-- Translated from `detectBearFlip`: false on any absent reading, otherwise
a downward RSI5/RSI9 crossover confirmed by a falling RSI14. -/
def detectBearFlip (rsi5 rsi9 rsi5Prev rsi9Prev : Option ℚ)
    (rsi14Falling : Bool) : Bool :=
  match rsi5, rsi9, rsi5Prev, rsi9Prev with
  | some a, some b, some ap, some bp =>
    (decide (ap ≥ bp) && decide (a < b)) && rsi14Falling
  | _, _, _, _ => false

/-- Translated from `calculateSwingBias`: long only when both higher
timeframes are bull, short only when both are bear, otherwise no trade. -/
def calculateSwingBias (trend1D trend4H : TrendState) : BiasType :=
  if trend1D = TrendState.bull ∧ trend4H = TrendState.bull then .long_only
  else if trend1D = TrendState.bear ∧ trend4H = TrendState.bear then .short_only
  else .no_trade

/-- Divergence classification (divergence module). -/
inductive DivType
  | bullish
  | bearish
  deriving DecidableEq

/-- Per-timeframe snapshot (signals module), all RSI readings nullable. -/
structure TimeframeAnalysis where
  timeframe : String
  trendState : TrendState
  stretchState : StretchState
  rsi5 : Option ℚ
  rsi9 : Option ℚ
  rsi14 : Option ℚ
  rsi14Prev : Option ℚ
  rsi50 : Option ℚ
  rsi75 : Option ℚ
  rsi100 : Option ℚ
  rsi200 : Option ℚ
  bullFlip : Bool
  bearFlip : Bool
  rsi14Rising : Bool
  rsi14Falling : Bool

/-- The reason strings produced by `checkSwingLong`, abstracted as an
inductive type; the rational payloads stand for the interpolated RSI values
of the corresponding messages. -/
inductive SwingReason
  | biasNotLong
  | biasLong
  | rsi4hMissing
  | rsi4hCrossedAbove (x : ℚ)
  | rsi4hInReset (x : ℚ)
  | rsi4hNotReset (x : ℚ)
  | rsi4hRising
  | rsi4hNotRising
  | rsi1hBelow (y : Option ℚ)
  | rsi1hNotRising
  | rsi1hOkRising (y : ℚ)
  | aPlusBullishDiv
  deriving DecidableEq

/-- Reasons rendered with a leading check mark in the source. -/
def isPositiveReason : SwingReason → Bool
  | .biasLong | .rsi4hCrossedAbove _ | .rsi4hInReset _ | .rsi4hRising
  | .rsi1hOkRising _ => true
  | _ => false

/-- Reasons rendered with a leading cross mark (or the initial bias-failure
message) in the source. -/
def isNegativeReason : SwingReason → Bool
  | .biasNotLong | .rsi4hMissing | .rsi4hNotReset _ | .rsi4hNotRising
  | .rsi1hBelow _ | .rsi1hNotRising => true
  | _ => false

/-- Verdict of a signal checklist (signals module). -/
structure CheckResult where
  valid : Bool
  reasons : List SwingReason
  deriving DecidableEq

/-- Translated from `checkSwingLong`: ordered short-circuit checklist — bias
long-only; 4H RSI14 present and in the 35-45 reset zone or just above it
(45-55) while rising; 4H RSI14 rising; 1H RSI14 present, at least 50 and
rising.  A bullish divergence appends a bonus reason after a valid verdict. -/
def checkSwingLong (swingBias : BiasType) (tf4H tf1H : TimeframeAnalysis)
    (divergence : Option DivType) : CheckResult :=
  if swingBias ≠ BiasType.long_only then
    { valid := false, reasons := [SwingReason.biasNotLong] }
  else
    match tf4H.rsi14 with
    | none =>
      { valid := false, reasons := [SwingReason.biasLong, SwingReason.rsi4hMissing] }
    | some x =>
      match (if 35 ≤ x ∧ x ≤ 45 then some (SwingReason.rsi4hInReset x)
        else if 45 < x ∧ x < 55 ∧ tf4H.rsi14Rising = true then
          some (SwingReason.rsi4hCrossedAbove x)
        else none) with
      | none =>
        { valid := false,
          reasons := [SwingReason.biasLong, SwingReason.rsi4hNotReset x] }
      | some r2 =>
        if tf4H.rsi14Rising = false then
          { valid := false,
            reasons := [SwingReason.biasLong, r2, SwingReason.rsi4hNotRising] }
        else
          match tf1H.rsi14 with
          | none =>
            { valid := false,
              reasons := [SwingReason.biasLong, r2, SwingReason.rsi4hRising,
                SwingReason.rsi1hBelow none] }
          | some y =>
            if y < 50 then
              { valid := false,
                reasons := [SwingReason.biasLong, r2, SwingReason.rsi4hRising,
                  SwingReason.rsi1hBelow (some y)] }
            else if tf1H.rsi14Rising = false then
              { valid := false,
                reasons := [SwingReason.biasLong, r2, SwingReason.rsi4hRising,
                  SwingReason.rsi1hNotRising] }
            else
              { valid := true,
                reasons := [SwingReason.biasLong, r2, SwingReason.rsi4hRising,
                  SwingReason.rsi1hOkRising y] ++
                  (if divergence = some DivType.bullish then
                    [SwingReason.aPlusBullishDiv]
                  else []) }

/-- A 4H snapshot passing every swing-long gate (RSI14 in the reset zone and
rising). -/
def tfFourExample : TimeframeAnalysis :=
  { timeframe := "4h", trendState := TrendState.bull,
    stretchState := StretchState.neutral, rsi5 := none, rsi9 := none,
    rsi14 := some 40, rsi14Prev := some 38, rsi50 := some 55, rsi75 := none,
    rsi100 := none, rsi200 := none, bullFlip := false, bearFlip := false,
    rsi14Rising := true, rsi14Falling := false }

/-- A 1H snapshot passing the swing-long confirmation gate (RSI14 at least 50
and rising). -/
def tfOneExample : TimeframeAnalysis :=
  { timeframe := "1h", trendState := TrendState.bull,
    stretchState := StretchState.neutral, rsi5 := none, rsi9 := none,
    rsi14 := some 55, rsi14Prev := some 52, rsi50 := some 60, rsi75 := none,
    rsi100 := none, rsi200 := none, bullFlip := false, bearFlip := false,
    rsi14Rising := true, rsi14Falling := false }

/-- Translated from `findLocalExtremes` (divergence module): indices `i` with
`lookback ≤ i < length - lookback` whose value equals the maximum (resp.
minimum) of the window `[i-lookback, i+lookback]`. -/
def findLocalExtremes (values : List ℚ) (isMax : Bool) (lookback : ℕ) : List ℕ :=
  (List.range values.length).filter fun i =>
    decide (lookback ≤ i) && decide (i + lookback + 1 ≤ values.length) &&
      (let window := (values.drop (i - lookback)).take (i + lookback + 1 - (i - lookback))
       if isMax then decide (window.max? = some (values.getD i 0))
       else decide (window.min? = some (values.getD i 0)))

/-- JavaScript `array.slice(-n)` for a natural `n`: the last `n` elements,
except that `slice(-0)` is `slice(0)`, the whole array. -/
def jsSliceNeg (l : List ℚ) (n : ℕ) : List ℚ :=
  if n = 0 then l else l.drop (l.length - n)

/-- Translated from `detectDivergence` (divergence module): over the last
`lookbackCandles` points, bearish when the two most recent radius-3 price
highs rise while the two most recent RSI highs fall and the latest highs are
within five candles; otherwise the mirror bullish check on lows; otherwise
`null`.  Insufficient history returns `null`. -/
def detectDivergence (closes rsiValues : List ℚ) (lookbackCandles : ℕ) :
    Option DivType :=
  if closes.length < lookbackCandles ∨ rsiValues.length < lookbackCandles then none
  else
    let recentCloses := jsSliceNeg closes lookbackCandles
    let recentRSI := jsSliceNeg rsiValues lookbackCandles
    let priceHighs := findLocalExtremes recentCloses true 3
    let priceLows := findLocalExtremes recentCloses false 3
    let rsiHighs := findLocalExtremes recentRSI true 3
    let rsiLows := findLocalExtremes recentRSI false 3
    if 2 ≤ priceHighs.length ∧ 2 ≤ rsiHighs.length ∧
        recentCloses.getD (priceHighs.getD (priceHighs.length - 1) 0) 0 >
          recentCloses.getD (priceHighs.getD (priceHighs.length - 2) 0) 0 ∧
        recentRSI.getD (rsiHighs.getD (rsiHighs.length - 1) 0) 0 <
          recentRSI.getD (rsiHighs.getD (rsiHighs.length - 2) 0) 0 ∧
        ((priceHighs.getD (priceHighs.length - 1) 0 : ℤ) -
          (rsiHighs.getD (rsiHighs.length - 1) 0 : ℤ)).natAbs ≤ 5 then
      some DivType.bearish
    else if 2 ≤ priceLows.length ∧ 2 ≤ rsiLows.length ∧
        recentCloses.getD (priceLows.getD (priceLows.length - 1) 0) 0 <
          recentCloses.getD (priceLows.getD (priceLows.length - 2) 0) 0 ∧
        recentRSI.getD (rsiLows.getD (rsiLows.length - 1) 0) 0 >
          recentRSI.getD (rsiLows.getD (rsiLows.length - 2) 0) 0 ∧
        ((priceLows.getD (priceLows.length - 1) 0 : ℤ) -
          (rsiLows.getD (rsiLows.length - 1) 0 : ℤ)).natAbs ≤ 5 then
      some DivType.bullish
    else none

/-- The claim's bearish condition, stated over the last `lookback` points of
both series (for `lookback = 0` this is the empty restriction): both sliced
series have at least two radius-3 local highs, the most recent price high
strictly exceeds the previous one, the most recent RSI high is strictly below
the previous one, and the two most recent high positions differ by at most
five. -/
@[reducible]
def bearishDivergenceSpec (closes rsiValues : List ℚ) (lookback : ℕ) : Prop :=
  let recentCloses := closes.drop (closes.length - lookback)
  let recentRSI := rsiValues.drop (rsiValues.length - lookback)
  let priceHighs := findLocalExtremes recentCloses true 3
  let rsiHighs := findLocalExtremes recentRSI true 3
  2 ≤ priceHighs.length ∧ 2 ≤ rsiHighs.length ∧
    recentCloses.getD (priceHighs.getD (priceHighs.length - 1) 0) 0 >
      recentCloses.getD (priceHighs.getD (priceHighs.length - 2) 0) 0 ∧
    recentRSI.getD (rsiHighs.getD (rsiHighs.length - 1) 0) 0 <
      recentRSI.getD (rsiHighs.getD (rsiHighs.length - 2) 0) 0 ∧
    ((priceHighs.getD (priceHighs.length - 1) 0 : ℤ) -
      (rsiHighs.getD (rsiHighs.length - 1) 0 : ℤ)).natAbs ≤ 5

/-- The claim's bullish condition: the mirror of `bearishDivergenceSpec` on
radius-3 local lows. -/
@[reducible]
def bullishDivergenceSpec (closes rsiValues : List ℚ) (lookback : ℕ) : Prop :=
  let recentCloses := closes.drop (closes.length - lookback)
  let recentRSI := rsiValues.drop (rsiValues.length - lookback)
  let priceLows := findLocalExtremes recentCloses false 3
  let rsiLows := findLocalExtremes recentRSI false 3
  2 ≤ priceLows.length ∧ 2 ≤ rsiLows.length ∧
    recentCloses.getD (priceLows.getD (priceLows.length - 1) 0) 0 <
      recentCloses.getD (priceLows.getD (priceLows.length - 2) 0) 0 ∧
    recentRSI.getD (rsiLows.getD (rsiLows.length - 1) 0) 0 >
      recentRSI.getD (rsiLows.getD (rsiLows.length - 2) 0) 0 ∧
    ((priceLows.getD (priceLows.length - 1) 0 : ℤ) -
      (rsiLows.getD (rsiLows.length - 1) 0 : ℤ)).natAbs ≤ 5

/-- Price series with rising radius-3 highs (5 then 6) at indices 4 and 8. -/
def divergenceCloses : List ℚ := [0, 0, 0, 0, 5, 0, 0, 0, 6, 0, 0, 0, 0]

/-- RSI series with falling radius-3 highs (9 then 7) at indices 4 and 8. -/
def divergenceRSI : List ℚ := [0, 0, 0, 0, 9, 0, 0, 0, 7, 0, 0, 0, 0]

/-- Aggregate confluence signal classes (analysis module). -/
inductive ConfSignal
  | strong_buy
  | buy
  | neutral
  | sell
  | strong_sell
  deriving DecidableEq

/-- Per-pair RSI data (binance module): nullable readings per timeframe label
and per period, with both missing-map and missing-entry represented as
`none`. -/
structure RSIData where
  symbol : String
  name : String
  price : ℚ
  timeframes : String → Option (ℕ → Option ℚ)

/-- Confluence score record (analysis module). -/
structure ConfluenceScore where
  oversoldCount : ℕ
  overboughtCount : ℕ
  totalTimeframes : ℕ
  signal : ConfSignal
  score : ℤ

/-- JavaScript `Math.round`: round half towards positive infinity. -/
def jsRound (q : ℚ) : ℤ := ⌊q + 1 / 2⌋

/-- The lookup `crypto.timeframes[tf]?.[rsiPeriod]`. -/
def readRSI (crypto : RSIData) (tf : String) (rsiPeriod : ℕ) : Option ℚ :=
  (crypto.timeframes tf).bind fun m => m rsiPeriod

/-- Loop body of `calculateConfluence`: skip a missing reading, otherwise
count it as valid and classify it as oversold (`< 30`) or overbought
(`> 70`). -/
def confluenceStep (crypto : RSIData) (rsiPeriod : ℕ) (acc : ℕ × ℕ × ℕ)
    (tf : String) : ℕ × ℕ × ℕ :=
  match readRSI crypto tf rsiPeriod with
  | none => acc
  | some rsi =>
    if rsi < 30 then (acc.1 + 1, acc.2.1, acc.2.2 + 1)
    else if rsi > 70 then (acc.1, acc.2.1 + 1, acc.2.2 + 1)
    else (acc.1, acc.2.1, acc.2.2 + 1)

/-- Translated from `calculateConfluence`: count oversold/overbought/valid
readings over the timeframe list, score as the rounded percentage of the net
count over the valid count (0 when no valid reading), and classify with the
buy-side checks first. -/
def calculateConfluence (crypto : RSIData) (rsiPeriod : ℕ)
    (timeframes : List String) : ConfluenceScore :=
  let counts := timeframes.foldl (confluenceStep crypto rsiPeriod) (0, 0, 0)
  let netScore : ℤ := (counts.1 : ℤ) - counts.2.1
  let score : ℤ :=
    if 0 < counts.2.2 then jsRound (((netScore : ℚ) / counts.2.2) * 100) else 0
  let signal : ConfSignal :=
    if 3 ≤ counts.1 then ConfSignal.strong_buy
    else if 2 ≤ counts.1 then ConfSignal.buy
    else if 3 ≤ counts.2.1 then ConfSignal.strong_sell
    else if 2 ≤ counts.2.1 then ConfSignal.sell
    else ConfSignal.neutral
  { oversoldCount := counts.1, overboughtCount := counts.2.1,
    totalTimeframes := counts.2.2, signal := signal, score := score }

/-- A present reading strictly below 30. -/
def confluenceOversold (crypto : RSIData) (rsiPeriod : ℕ) (tf : String) : Bool :=
  match readRSI crypto tf rsiPeriod with
  | some v => decide (v < 30)
  | none => false

/-- A present reading strictly above 70. -/
def confluenceOverbought (crypto : RSIData) (rsiPeriod : ℕ) (tf : String) : Bool :=
  match readRSI crypto tf rsiPeriod with
  | some v => decide (70 < v)
  | none => false

/-- Readings `{1h ↦ 25, 4h ↦ 28, 1d ↦ 72}` at period 14, as in the spec's
confluence example. -/
def exampleCrypto : RSIData :=
  { symbol := "EX", name := "Example", price := 0,
    timeframes := fun tf =>
      if tf = "1h" then some (fun p => if p = 14 then some 25 else none)
      else if tf = "4h" then some (fun p => if p = 14 then some 28 else none)
      else if tf = "1d" then some (fun p => if p = 14 then some 72 else none)
      else none }

/-- Backtest signal classification (backtest module). -/
inductive SigType
  | oversold
  | overbought
  deriving DecidableEq

/-- One historical threshold-crossing event with forward returns (backtest
module). -/
structure BacktestSignal where
  timestamp : ℤ
  price : ℚ
  rsi : ℚ
  type : SigType
  return1h : Option ℚ
  return4h : Option ℚ
  return24h : ℚ
  deriving DecidableEq

/-- Per-direction aggregate statistics (backtest module). -/
structure BtStats where
  count : ℕ
  winRate1h : ℚ
  winRate4h : ℚ
  winRate24h : ℚ
  avgReturn1h : ℚ
  avgReturn4h : ℚ
  avgReturn24h : ℚ
  deriving DecidableEq

/-- Backtest outcome (backtest module). -/
structure BacktestResult where
  signals : List BacktestSignal
  oversoldStats : BtStats
  overboughtStats : BtStats
  deriving DecidableEq

/-- Horizon candle counts per timeframe (`intervalMap` in the backtest
module); the 4h row uses a fractional quarter-candle 1h horizon. -/
structure BtConfig where
  candlesFor1h : ℚ
  candlesFor4h : ℚ
  candlesFor24h : ℚ
  deriving DecidableEq

/-- Translated from the `intervalMap` table of `runBacktest`. -/
def intervalMap (timeframe : String) : Option BtConfig :=
  if timeframe = "1h" then some ⟨1, 4, 24⟩
  else if timeframe = "4h" then some ⟨1 / 4, 1, 6⟩
  else if timeframe = "1d" then some ⟨0, 0, 1⟩
  else none

/-- One iteration of the `runBacktest` scan loop at index `i`: inside the
scan range, classify the RSI reading at `i` against the thresholds and, on a
crossing, record entry price and capped forward returns (a horizon with a
nonpositive candle count yields a null return). -/
def backtestStep (data : List (ℤ × ℚ)) (rsiValues : List ℚ) (rsiPeriod : ℕ)
    (oversoldThreshold overboughtThreshold : ℚ) (config : BtConfig) (i : ℕ) :
    Option BacktestSignal :=
  if rsiPeriod ≤ i ∧ (i : ℤ) < (data.length : ℤ) - ⌈config.candlesFor24h⌉ - 1 then
    match rsiValues.get? (i - rsiPeriod) with
    | none => none
    | some rsi =>
      if rsi < oversoldThreshold ∨ overboughtThreshold < rsi then
        let t : SigType :=
          if rsi < oversoldThreshold then SigType.oversold else SigType.overbought
        let entryPrice := (data.getD i (0, 0)).2
        let idx1h := min (i + (⌈config.candlesFor1h⌉).toNat) (data.length - 1)
        let idx4h := min (i + (⌈config.candlesFor4h⌉).toNat) (data.length - 1)
        let idx24h := min (i + (⌈config.candlesFor24h⌉).toNat) (data.length - 1)
        some
          { timestamp := (data.getD i (0, 0)).1
            price := entryPrice
            rsi := rsi
            type := t
            return1h := if 0 < config.candlesFor1h then
                some (((data.getD idx1h (0, 0)).2 - entryPrice) / entryPrice * 100)
              else none
            return4h := if 0 < config.candlesFor4h then
                some (((data.getD idx4h (0, 0)).2 - entryPrice) / entryPrice * 100)
              else none
            return24h := ((data.getD idx24h (0, 0)).2 - entryPrice) / entryPrice * 100 }
      else none
  else none

/-- The scan loop of `runBacktest`: one optional signal per candle index. -/
def backtestSignals (data : List (ℤ × ℚ)) (rsiValues : List ℚ) (rsiPeriod : ℕ)
    (oversoldThreshold overboughtThreshold : ℚ) (config : BtConfig) :
    List BacktestSignal :=
  (List.range data.length).filterMap
    (backtestStep data rsiValues rsiPeriod oversoldThreshold overboughtThreshold config)

/-- Translated from `calcStats` in `runBacktest`: zero statistics for no
signals, otherwise win rates as the percentage of returns whose sign matches
the expected direction, and mean returns, with null returns dropped. -/
def calcStats (sigs : List BacktestSignal) (expectUp : Bool) : BtStats :=
  if sigs.length = 0 then ⟨0, 0, 0, 0, 0, 0, 0⟩
  else
    let returns1h := sigs.filterMap fun s => s.return1h
    let returns4h := sigs.filterMap fun s => s.return4h
    let returns24h := sigs.map fun s => s.return24h
    let winCond : ℚ → Bool := fun r =>
      if expectUp then decide (0 < r) else decide (r < 0)
    { count := sigs.length
      winRate1h := if 0 < returns1h.length then
          ((returns1h.filter winCond).length : ℚ) / (returns1h.length : ℚ) * 100
        else 0
      winRate4h := if 0 < returns4h.length then
          ((returns4h.filter winCond).length : ℚ) / (returns4h.length : ℚ) * 100
        else 0
      winRate24h := ((returns24h.filter winCond).length : ℚ) / (returns24h.length : ℚ) * 100
      avgReturn1h := if 0 < returns1h.length then
          returns1h.sum / (returns1h.length : ℚ)
        else 0
      avgReturn4h := if 0 < returns4h.length then
          returns4h.sum / (returns4h.length : ℚ)
        else 0
      avgReturn24h := returns24h.sum / (returns24h.length : ℚ) }

/-- Translated from `runBacktest`, with the network fetch abstracted away:
the `data` argument stands for the parsed klines (timestamp, close), and the
`klines.length < rsiPeriod + 50` guard and unknown-timeframe guard are kept;
the trailing `signals.slice(-50)` display cap applies only to the reported
signal list, not to the statistics. -/
def runBacktest (data : List (ℤ × ℚ)) (timeframe : String) (rsiPeriod : ℕ)
    (oversoldThreshold overboughtThreshold : ℚ) : Option BacktestResult :=
  match intervalMap timeframe with
  | none => none
  | some config =>
    if data.length < rsiPeriod + 50 then none
    else
      let closes := data.map fun d => d.2
      let rsiValues := calculateRSIArray closes rsiPeriod
      let signals := backtestSignals data rsiValues rsiPeriod oversoldThreshold
        overboughtThreshold config
      some
        { signals := signals.drop (signals.length - 50)
          oversoldStats := calcStats
            (signals.filter fun s => decide (s.type = SigType.oversold)) true
          overboughtStats := calcStats
            (signals.filter fun s => decide (s.type = SigType.overbought)) false }

/-- The claim's crossing predicate at candle index `i`: the index lies in the
scan range and its RSI reading is below the oversold threshold or above the
overbought threshold. -/
def crossesThreshold (data : List (ℤ × ℚ)) (rsiValues : List ℚ) (rsiPeriod : ℕ)
    (oversoldThreshold overboughtThreshold : ℚ) (config : BtConfig) (i : ℕ) : Bool :=
  decide (rsiPeriod ≤ i ∧ (i : ℤ) < (data.length : ℤ) - ⌈config.candlesFor24h⌉ - 1) &&
    (match rsiValues.get? (i - rsiPeriod) with
     | none => false
     | some rsi => decide (rsi < oversoldThreshold ∨ overboughtThreshold < rsi))

/-- The number of candles whose oscillator crossed a threshold inside the
scan range. -/
def thresholdCrossCount (data : List (ℤ × ℚ)) (rsiValues : List ℚ) (rsiPeriod : ℕ)
    (oversoldThreshold overboughtThreshold : ℚ) (config : BtConfig) : ℕ :=
  ((List.range data.length).filter
    (crossesThreshold data rsiValues rsiPeriod oversoldThreshold overboughtThreshold
      config)).length

theorem smoothStep_nonneg (period : ℕ) (hp : 1 ≤ period) (s : ℚ × ℚ) (c : ℚ)
    (h1 : 0 ≤ s.1) (h2 : 0 ≤ s.2) :
    0 ≤ (smoothStep period s c).1 ∧ 0 ≤ (smoothStep period s c).2 := by
  have hpq : (0 : ℚ) ≤ (period : ℚ) := by positivity
  have hp1 : (0 : ℚ) ≤ (period : ℚ) - 1 := by
    have : (1 : ℚ) ≤ (period : ℚ) := by exact_mod_cast hp
    linarith
  have hg := mul_nonneg h1 hp1
  have hl := mul_nonneg h2 hp1
  unfold smoothStep
  split_ifs with hc
  · exact ⟨div_nonneg (by nlinarith) hpq, div_nonneg (by nlinarith) hpq⟩
  · exact ⟨div_nonneg (by nlinarith) hpq, div_nonneg (by nlinarith) hpq⟩

theorem foldl_smooth_nonneg (period : ℕ) (hp : 1 ≤ period) (ds : List ℚ) :
    ∀ s : ℚ × ℚ, 0 ≤ s.1 → 0 ≤ s.2 →
      0 ≤ (ds.foldl (smoothStep period) s).1 ∧ 0 ≤ (ds.foldl (smoothStep period) s).2 := by
  induction ds with
  | nil => exact fun s h1 h2 => ⟨h1, h2⟩
  | cons c tl ih =>
    intro s h1 h2
    simp only [List.foldl_cons]
    obtain ⟨g1, g2⟩ := smoothStep_nonneg period hp s c h1 h2
    exact ih _ g1 g2

theorem initAvg_nonneg (closes : List ℚ) (period : ℕ) :
    0 ≤ (initAvg closes period).1 ∧ 0 ≤ (initAvg closes period).2 := by
  unfold initAvg
  dsimp only
  constructor
  · apply div_nonneg _ (by positivity)
    apply List.sum_nonneg
    intro x hx
    simp only [List.mem_map] at hx
    obtain ⟨c, -, rfl⟩ := hx
    split_ifs with h
    · linarith
    · exact le_refl 0
  · apply div_nonneg _ (by positivity)
    apply List.sum_nonneg
    intro x hx
    simp only [List.mem_map] at hx
    obtain ⟨c, -, rfl⟩ := hx
    split_ifs with h
    · exact le_refl 0
    · linarith

theorem finalAvg_nonneg (closes : List ℚ) (period : ℕ) (hp : 1 ≤ period) :
    0 ≤ (finalAvg closes period).1 ∧ 0 ≤ (finalAvg closes period).2 :=
  foldl_smooth_nonneg period hp _ _ (initAvg_nonneg closes period).1
    (initAvg_nonneg closes period).2

theorem rsi_readout_bounds (g l : ℚ) (hg : 0 ≤ g) (hl : 0 < l) :
    0 ≤ 100 - 100 / (1 + g / l) ∧ 100 - 100 / (1 + g / l) ≤ 100 := by
  have hrs : 0 ≤ g / l := div_nonneg hg hl.le
  have h1 : (1 : ℚ) ≤ 1 + g / l := by linarith
  have h0 : (0 : ℚ) < 1 + g / l := by linarith
  constructor
  · have : 100 / (1 + g / l) ≤ 100 / 1 := by
      apply div_le_div_of_nonneg_left (by norm_num) (by norm_num) h1
    linarith [this]
  · have : 0 ≤ 100 / (1 + g / l) := div_nonneg (by norm_num) h0.le
    linarith

/-- C1: `calculateRSI` returns `none` exactly when the series has fewer than
`period+1` points, and every returned value lies in `[0, 100]`. -/
theorem calculateRSI_absent_iff_and_in_range (closes : List ℚ) (period : ℕ)
    (hp : 1 ≤ period) :
    (calculateRSI closes period = none ↔ closes.length < period + 1) ∧
    (∀ v, calculateRSI closes period = some v → 0 ≤ v ∧ v ≤ 100) := by
  constructor
  · unfold calculateRSI
    split_ifs with h h2 <;> simp [h]
  · intro v hv
    unfold calculateRSI at hv
    split_ifs at hv with h h2
    · cases (Option.some.injEq _ _ ▸ hv : (100 : ℚ) = v)
      norm_num
    · cases (Option.some.injEq _ _ ▸ hv)
      have hnn := finalAvg_nonneg closes period hp
      have hlpos : 0 < (finalAvg closes period).2 := lt_of_le_of_ne hnn.2 (Ne.symm h2)
      exact rsi_readout_bounds _ _ hnn.1 hlpos

/-- Witness for C1 at `closes = [1, 2, 1]`, `period = 1`: the RSI is present
and equals 0, which lies in `[0, 100]`. -/
theorem calculateRSI_absent_iff_and_in_range_witness :
    calculateRSI [1, 2, 1] 1 = some 0 ∧ (0 ≤ (0 : ℚ) ∧ (0 : ℚ) ≤ 100) := by
  have h : calculateRSI [1, 2, 1] 1 = some 0 := by
    norm_num [calculateRSI, finalAvg, diffs, initAvg, smoothStep]
  exact ⟨h, (calculateRSI_absent_iff_and_in_range [1, 2, 1] 1 (le_refl 1)).2 0 h⟩

theorem arrayStep_eq_smoothStep (period : ℕ) (s : ℚ × ℚ) (c : ℚ) :
    arrayStep period s c = smoothStep period s c := by
  by_cases h1 : c > 0
  · have h2 : ¬ c < 0 := by linarith
    simp only [arrayStep, smoothStep, h1, h2, if_true, if_false, Prod.mk.injEq]
    constructor <;> ring
  · by_cases h2 : c < 0
    · simp only [arrayStep, smoothStep, h1, h2, if_true, if_false, Prod.mk.injEq]
      constructor <;> ring
    · have hc : c = 0 := le_antisymm (not_lt.mp h1) (not_lt.mp h2)
      subst hc
      simp only [arrayStep, smoothStep, h1, h2, if_true, if_false, Prod.mk.injEq]
      constructor <;> ring

theorem scanl_ne_nil (f : ℚ × ℚ → ℚ → ℚ × ℚ) (b : ℚ × ℚ) (l : List ℚ) :
    l.scanl f b ≠ [] := by
  intro h
  have := List.length_scanl (f := f) b l
  rw [h] at this
  simp at this

theorem getLast?_scanl (f : ℚ × ℚ → ℚ → ℚ × ℚ) (l : List ℚ) :
    ∀ b : ℚ × ℚ, (l.scanl f b).getLast? = some (l.foldl f b) := by
  induction l with
  | nil => intro b; simp [List.scanl_nil]
  | cons a t ih =>
    intro b
    rw [List.scanl_cons, List.foldl_cons,
      List.getLast?_append_of_ne_nil _ (scanl_ne_nil f (f b a) t)]
    exact ih (f b a)

theorem scanl_congr (f g : ℚ × ℚ → ℚ → ℚ × ℚ) (h : ∀ b a, f b a = g b a) (l : List ℚ) :
    ∀ b, l.scanl f b = l.scanl g b := by
  induction l with
  | nil => intro b; simp [List.scanl_nil]
  | cons a t ih => intro b; rw [List.scanl_cons, List.scanl_cons, h, ih]

theorem diffs_length (closes : List ℚ) : (diffs closes).length = closes.length - 1 := by
  simp [diffs]

/-- C2 counterexample: on the two-point rising series `[1, 2]` with period 1
the array form's last (and only) element is `10000/101 ≈ 99.01`, while the
scalar form returns exactly `100`; the claimed equality of the array's last
element with the scalar value fails. -/
theorem calculateRSIArray_last_ne_scalar_cex :
    calculateRSIArray [1, 2] 1 = [10000 / 101] ∧
    calculateRSI [1, 2] 1 = some 100 ∧ (10000 / 101 : ℚ) ≠ 100 := by
  refine ⟨?_, ?_, by norm_num⟩ <;>
    norm_num [calculateRSIArray, calculateRSI, finalAvg, diffs, initAvg, arrayStep,
      rsiFromAvg]

/-- C2 (amended): with at least `period+1` points the array form returns
exactly `length - period` values driven by the same recursive smoothing as
the scalar form (`smoothStep`), and its last element equals `calculateRSI`
whenever that value is not `100`; when the scalar value is `100` (zero final
average loss) the array's last element is `10000/101` instead.  With fewer
than `period+1` points the array form returns `[]`. -/
theorem calculateRSIArray_length_smoothing_last (closes : List ℚ) (period : ℕ)
    (_hp : 1 ≤ period) :
    (closes.length < period + 1 → calculateRSIArray closes period = []) ∧
    (period + 1 ≤ closes.length →
      (calculateRSIArray closes period).length = closes.length - period ∧
      calculateRSIArray closes period =
        (((diffs closes).drop period).scanl (smoothStep period)
          (initAvg closes period)).map rsiFromAvg ∧
      (∀ v, calculateRSI closes period = some v → v ≠ 100 →
        (calculateRSIArray closes period).getLast? = some v) ∧
      ((finalAvg closes period).2 = 0 →
        (calculateRSIArray closes period).getLast? = some (10000 / 101))) := by
  constructor
  · intro h
    unfold calculateRSIArray
    rw [if_pos h]
  · intro h
    have hnot : ¬ closes.length < period + 1 := by omega
    have harr : calculateRSIArray closes period =
        (((diffs closes).drop period).scanl (smoothStep period)
          (initAvg closes period)).map rsiFromAvg := by
      unfold calculateRSIArray
      rw [if_neg hnot, scanl_congr _ _ (arrayStep_eq_smoothStep period)]
    refine ⟨?_, harr, ?_, ?_⟩
    · rw [harr]
      simp only [List.length_map, List.length_scanl, List.length_drop, diffs_length]
      omega
    · intro v hv hv100
      unfold calculateRSI at hv
      rw [if_neg hnot] at hv
      split_ifs at hv with h0
      · exact absurd (Option.some.inj hv).symm hv100
      · rw [harr, List.getLast?_map, getLast?_scanl]
        have : rsiFromAvg (finalAvg closes period) =
            100 - 100 / (1 + (finalAvg closes period).1 / (finalAvg closes period).2) := by
          unfold rsiFromAvg
          rw [if_neg h0]
        simp only [Option.map_some']
        rw [show ((diffs closes).drop period).foldl (smoothStep period)
            (initAvg closes period) = finalAvg closes period from rfl, this,
          Option.some.inj hv]
    · intro h0
      rw [harr, List.getLast?_map, getLast?_scanl]
      have : rsiFromAvg (finalAvg closes period) = 10000 / 101 := by
        unfold rsiFromAvg
        rw [if_pos h0]
        norm_num
      simp only [Option.map_some']
      rw [show ((diffs closes).drop period).foldl (smoothStep period)
          (initAvg closes period) = finalAvg closes period from rfl, this]

/-- Witness for the amended C2 at `closes = [1, 2, 1]`, `period = 1`: two
values are produced (`3 - 1`), and the last one equals the scalar RSI `0`. -/
theorem calculateRSIArray_length_smoothing_last_witness :
    calculateRSIArray [1, 2, 1] 1 = [100 - 100 / 101, 0] ∧
    (calculateRSIArray [1, 2, 1] 1).length = 2 ∧
    (calculateRSIArray [1, 2, 1] 1).getLast? = some 0 := by
  have harr : calculateRSIArray [1, 2, 1] 1 = [100 - 100 / 101, 0] := by
    norm_num [calculateRSIArray, diffs, initAvg, arrayStep, rsiFromAvg, List.scanl]
  have h := (calculateRSIArray_length_smoothing_last [1, 2, 1] 1 (le_refl 1)).2
    (by norm_num)
  refine ⟨harr, by simpa using h.1, ?_⟩
  exact h.2.2.1 0 (by norm_num [calculateRSI, finalAvg, diffs, initAvg, smoothStep])
    (by norm_num)

theorem calculateTrendState_some_some (x y : ℚ) (rsi200 : Option ℚ) :
    calculateTrendState (some x) (some y) rsi200 =
      if 50 ≤ x ∧ 50 ≤ y ∧
          (match rsi200 with | none => true | some r => decide (50 ≤ r)) = true
      then TrendState.bull
      else if x ≤ 50 ∧ y ≤ 50 ∧
          (match rsi200 with | none => true | some r => decide (r ≤ 50)) = true
      then TrendState.bear
      else TrendState.neutral := rfl

/-- C3 counterexample: at `(50, 50, 50)` the claim's bear condition (all
readings at most 50, RSI200 present and at most 50) holds, yet the function
returns `bull`, because the bull branch is checked first and also matches. -/
theorem calculateTrendState_boundary_cex :
    calculateTrendState (some 50) (some 50) (some 50) = TrendState.bull ∧
    ((50 : ℚ) ≤ 50 ∧ (50 : ℚ) ≤ 50 ∧ (50 : ℚ) ≤ 50) ∧
    TrendState.bull ≠ TrendState.bear := by
  refine ⟨?_, by norm_num, by decide⟩
  rw [calculateTrendState_some_some]
  norm_num

/-- C3 (amended): `calculateTrendState` is neutral whenever RSI14 or RSI50 is
absent; with both present it is bull exactly when both are at least 50 and
RSI200 is absent or at least 50, bear exactly when the mirror condition holds
AND the bull condition does not (bull is checked first, deciding the
all-equal-50 overlap), and neutral exactly when neither condition holds.  The
four cited examples evaluate as claimed. -/
theorem calculateTrendState_characterization :
    (∀ (rsi14 rsi50 rsi200 : Option ℚ),
      rsi14 = none ∨ rsi50 = none →
        calculateTrendState rsi14 rsi50 rsi200 = TrendState.neutral) ∧
    (∀ (x y : ℚ) (rsi200 : Option ℚ),
      (calculateTrendState (some x) (some y) rsi200 = TrendState.bull ↔
        50 ≤ x ∧ 50 ≤ y ∧ ∀ z, rsi200 = some z → 50 ≤ z) ∧
      (calculateTrendState (some x) (some y) rsi200 = TrendState.bear ↔
        (x ≤ 50 ∧ y ≤ 50 ∧ ∀ z, rsi200 = some z → z ≤ 50) ∧
        ¬(50 ≤ x ∧ 50 ≤ y ∧ ∀ z, rsi200 = some z → 50 ≤ z)) ∧
      (calculateTrendState (some x) (some y) rsi200 = TrendState.neutral ↔
        ¬(50 ≤ x ∧ 50 ≤ y ∧ ∀ z, rsi200 = some z → 50 ≤ z) ∧
        ¬(x ≤ 50 ∧ y ≤ 50 ∧ ∀ z, rsi200 = some z → z ≤ 50))) ∧
    calculateTrendState (some 60) (some 60) (some 60) = TrendState.bull ∧
    calculateTrendState (some 40) (some 40) (some 40) = TrendState.bear ∧
    calculateTrendState (some 60) (some 40) (some 60) = TrendState.neutral ∧
    calculateTrendState (some 60) (some 60) none = TrendState.bull := by
  refine ⟨?_, ?_, ?_, ?_, ?_, ?_⟩
  · rintro rsi14 rsi50 rsi200 (rfl | rfl)
    · rfl
    · cases rsi14 <;> rfl
  · intro x y rsi200
    rcases rsi200 with _ | z
    · rw [calculateTrendState_some_some]
      split_ifs with h1 h2 <;> refine ⟨?_, ?_, ?_⟩ <;> simp_all <;> tauto
    · rw [calculateTrendState_some_some]
      split_ifs with h1 h2 <;> refine ⟨?_, ?_, ?_⟩ <;> simp_all <;> tauto
  · rw [calculateTrendState_some_some]
    norm_num
  · rw [calculateTrendState_some_some]
    norm_num
  · rw [calculateTrendState_some_some]
    norm_num
  · rw [calculateTrendState_some_some]
    norm_num

/-- C4: `calculateSwingBias` is long-only exactly when both trends are bull,
short-only exactly when both are bear, and no-trade in every other case; the
three cited examples evaluate as claimed. -/
theorem calculateSwingBias_characterization :
    (∀ a b : TrendState,
      (calculateSwingBias a b = BiasType.long_only ↔
        a = TrendState.bull ∧ b = TrendState.bull) ∧
      (calculateSwingBias a b = BiasType.short_only ↔
        a = TrendState.bear ∧ b = TrendState.bear) ∧
      (calculateSwingBias a b = BiasType.no_trade ↔
        ¬(a = TrendState.bull ∧ b = TrendState.bull) ∧
        ¬(a = TrendState.bear ∧ b = TrendState.bear))) ∧
    calculateSwingBias TrendState.bull TrendState.bull = BiasType.long_only ∧
    calculateSwingBias TrendState.bull TrendState.bear = BiasType.no_trade ∧
    calculateSwingBias TrendState.neutral TrendState.bull = BiasType.no_trade := by
  decide

theorem calculateStretchState_some_some (a b : ℚ) :
    calculateStretchState (some a) (some b) =
      if (decide (a ≤ 25) || decide (b ≤ 30)) = true then StretchState.oversold
      else if (decide (75 ≤ a) || decide (70 ≤ b)) = true then StretchState.overbought
      else StretchState.neutral := rfl

theorem calculateStretchState_some_none (a : ℚ) :
    calculateStretchState (some a) none =
      if (decide (a ≤ 25) || false) = true then StretchState.oversold
      else if (decide (75 ≤ a) || false) = true then StretchState.overbought
      else StretchState.neutral := rfl

theorem calculateStretchState_none_some (b : ℚ) :
    calculateStretchState none (some b) =
      if decide (b ≤ 30) = true then StretchState.oversold
      else if decide (70 ≤ b) = true then StretchState.overbought
      else StretchState.neutral := rfl

/-- C8 counterexample: at `rsi5 = 20`, `rsi9 = 80` the oversold condition
(`rsi5 ≤ 25`) and the overbought condition (`rsi9 ≥ 70`) hold simultaneously
(across different readings); the function returns oversold as that check runs
first, so the claimed impossibility of overlap is false. -/
theorem calculateStretchState_overlap_cex :
    ((20 : ℚ) ≤ 25 ∨ (80 : ℚ) ≤ 30) ∧ ((75 : ℚ) ≤ 20 ∨ (70 : ℚ) ≤ 80) ∧
    calculateStretchState (some 20) (some 80) = StretchState.oversold := by
  refine ⟨Or.inl (by norm_num), Or.inr (by norm_num), ?_⟩
  rw [calculateStretchState_some_some]
  norm_num

/-- C8 (amended): `calculateStretchState` is oversold exactly when RSI5 ≤ 25
or RSI9 ≤ 30, overbought exactly when the overbought condition (RSI5 ≥ 75 or
RSI9 ≥ 70) holds and the oversold condition does not, and neutral otherwise.
On any single reading the two conditions are disjoint, but across the two
readings both can hold, in which case the oversold check, evaluated first,
wins. -/
theorem calculateStretchState_characterization :
    (∀ rsi5 rsi9 : Option ℚ,
      (calculateStretchState rsi5 rsi9 = StretchState.oversold ↔
        (∃ v, rsi5 = some v ∧ v ≤ 25) ∨ (∃ v, rsi9 = some v ∧ v ≤ 30)) ∧
      (calculateStretchState rsi5 rsi9 = StretchState.overbought ↔
        ¬((∃ v, rsi5 = some v ∧ v ≤ 25) ∨ (∃ v, rsi9 = some v ∧ v ≤ 30)) ∧
        ((∃ v, rsi5 = some v ∧ 75 ≤ v) ∨ (∃ v, rsi9 = some v ∧ 70 ≤ v))) ∧
      (calculateStretchState rsi5 rsi9 = StretchState.neutral ↔
        ¬((∃ v, rsi5 = some v ∧ v ≤ 25) ∨ (∃ v, rsi9 = some v ∧ v ≤ 30)) ∧
        ¬((∃ v, rsi5 = some v ∧ 75 ≤ v) ∨ (∃ v, rsi9 = some v ∧ 70 ≤ v)))) ∧
    (∀ v : ℚ, ¬(v ≤ 25 ∧ 75 ≤ v)) ∧ (∀ v : ℚ, ¬(v ≤ 30 ∧ 70 ≤ v)) := by
  refine ⟨?_, fun v h => by linarith [h.1, h.2], fun v h => by linarith [h.1, h.2]⟩
  intro rsi5 rsi9
  rcases rsi5 with _ | a <;> rcases rsi9 with _ | b
  · refine ⟨?_, ?_, ?_⟩ <;> simp [calculateStretchState]
  · rw [calculateStretchState_none_some]
    split_ifs with h1 h2 <;> refine ⟨?_, ?_, ?_⟩ <;> simp_all <;> tauto
  · rw [calculateStretchState_some_none]
    split_ifs with h1 h2 <;> refine ⟨?_, ?_, ?_⟩ <;> simp_all <;> tauto
  · rw [calculateStretchState_some_some]
    split_ifs with h1 h2 <;> refine ⟨?_, ?_, ?_⟩ <;> simp_all <;> tauto

/-- C10: a bull flip and a bear flip can never be reported simultaneously on
the same readings: the former requires RSI5 strictly above RSI9, the latter
strictly below. -/
theorem flips_mutually_exclusive :
    ∀ (rsi5 rsi9 rsi5Prev rsi9Prev : Option ℚ) (rising falling : Bool),
      (detectBullFlip rsi5 rsi9 rsi5Prev rsi9Prev rising &&
        detectBearFlip rsi5 rsi9 rsi5Prev rsi9Prev falling) = false := by
  intro r5 r9 p5 p9 ris fal
  rcases r5 with _ | a <;> rcases r9 with _ | b <;>
    rcases p5 with _ | ap <;> rcases p9 with _ | bp <;>
    simp only [detectBullFlip, detectBearFlip, Bool.false_and, Bool.and_false] <;>
    try rfl
  by_cases h : b < a
  · have hn : ¬ a < b := lt_asymm h
    simp [hn]
  · simp [show ¬ a > b from h]

/-- C5: `checkSwingLong` is valid exactly when the four gates pass in order
(bias long-only; 4H RSI14 present and in the 35-45 reset zone or in 45-55
and rising; 4H RSI14 rising; 1H RSI14 present, at least 50 and rising); a
valid verdict carries exactly the positive reasons in step order plus the
bonus divergence reason when bullish divergence is present; an invalid
verdict carries positive reasons for the passed steps followed by a single
final negative reason; the bonus reason appears exactly on valid verdicts
with bullish divergence, and the divergence input never affects validity. -/
theorem checkSwingLong_characterization
    (swingBias : BiasType) (tf4H tf1H : TimeframeAnalysis)
    (divergence : Option DivType) :
    ((checkSwingLong swingBias tf4H tf1H divergence).valid = true ↔
      swingBias = BiasType.long_only ∧
      (∃ x, tf4H.rsi14 = some x ∧
        ((35 ≤ x ∧ x ≤ 45) ∨ (45 < x ∧ x < 55 ∧ tf4H.rsi14Rising = true))) ∧
      tf4H.rsi14Rising = true ∧
      (∃ y, tf1H.rsi14 = some y ∧ 50 ≤ y ∧ tf1H.rsi14Rising = true)) ∧
    ((checkSwingLong swingBias tf4H tf1H divergence).valid = true →
      ∃ x y, tf4H.rsi14 = some x ∧ tf1H.rsi14 = some y ∧
        (checkSwingLong swingBias tf4H tf1H divergence).reasons =
          [SwingReason.biasLong,
            (if 35 ≤ x ∧ x ≤ 45 then SwingReason.rsi4hInReset x
             else SwingReason.rsi4hCrossedAbove x),
            SwingReason.rsi4hRising, SwingReason.rsi1hOkRising y] ++
          (if divergence = some DivType.bullish then [SwingReason.aPlusBullishDiv]
           else [])) ∧
    ((checkSwingLong swingBias tf4H tf1H divergence).valid = false →
      (∀ a ∈ (checkSwingLong swingBias tf4H tf1H divergence).reasons.dropLast,
        isPositiveReason a = true) ∧
      (∃ r, (checkSwingLong swingBias tf4H tf1H divergence).reasons.getLast? = some r ∧
        isNegativeReason r = true)) ∧
    (SwingReason.aPlusBullishDiv ∈ (checkSwingLong swingBias tf4H tf1H divergence).reasons ↔
      (checkSwingLong swingBias tf4H tf1H divergence).valid = true ∧
      divergence = some DivType.bullish) ∧
    (checkSwingLong swingBias tf4H tf1H divergence).valid =
      (checkSwingLong swingBias tf4H tf1H none).valid := by
  by_cases hb : swingBias = BiasType.long_only
  case neg =>
    have e : ∀ dv, checkSwingLong swingBias tf4H tf1H dv =
        { valid := false, reasons := [SwingReason.biasNotLong] } := by
      intro dv
      unfold checkSwingLong
      rw [if_pos hb]
    simp [e, hb, isNegativeReason]
  subst hb
  have hb' : ¬ (BiasType.long_only ≠ BiasType.long_only) := fun h => h rfl
  rcases h4 : tf4H.rsi14 with _ | x
  · have e : ∀ dv, checkSwingLong BiasType.long_only tf4H tf1H dv =
        { valid := false,
          reasons := [SwingReason.biasLong, SwingReason.rsi4hMissing] } := by
      intro dv
      unfold checkSwingLong
      rw [if_neg hb', h4]
    simp [e, h4, isPositiveReason, isNegativeReason]
  by_cases hreset : 35 ≤ x ∧ x ≤ 45
  · by_cases hr4 : tf4H.rsi14Rising = true
    · rcases h1 : tf1H.rsi14 with _ | y
      · have e : ∀ dv, checkSwingLong BiasType.long_only tf4H tf1H dv =
            { valid := false,
              reasons := [SwingReason.biasLong, SwingReason.rsi4hInReset x,
                SwingReason.rsi4hRising, SwingReason.rsi1hBelow none] } := by
          intro dv
          unfold checkSwingLong
          rw [if_neg hb', h4]
          dsimp only
          rw [if_pos hreset]
          dsimp only
          rw [if_neg (by simp [hr4]), h1]
        simp [e, h4, h1, isPositiveReason, isNegativeReason]
      · by_cases hy : y < 50
        · have e : ∀ dv, checkSwingLong BiasType.long_only tf4H tf1H dv =
              { valid := false,
                reasons := [SwingReason.biasLong, SwingReason.rsi4hInReset x,
                  SwingReason.rsi4hRising, SwingReason.rsi1hBelow (some y)] } := by
            intro dv
            unfold checkSwingLong
            rw [if_neg hb', h4]
            dsimp only
            rw [if_pos hreset]
            dsimp only
            rw [if_neg (by simp [hr4]), h1]
            dsimp only
            rw [if_pos hy]
          have hny : ¬ 50 ≤ y := not_le.mpr hy
          simp [e, h4, h1, hny, isPositiveReason, isNegativeReason]
        · by_cases hr1 : tf1H.rsi14Rising = true
          · have e : ∀ dv, checkSwingLong BiasType.long_only tf4H tf1H dv =
                { valid := true,
                  reasons := [SwingReason.biasLong, SwingReason.rsi4hInReset x,
                    SwingReason.rsi4hRising, SwingReason.rsi1hOkRising y] ++
                    (if dv = some DivType.bullish then [SwingReason.aPlusBullishDiv]
                     else []) } := by
              intro dv
              unfold checkSwingLong
              rw [if_neg hb', h4]
              dsimp only
              rw [if_pos hreset]
              dsimp only
              rw [if_neg (by simp [hr4]), h1]
              dsimp only
              rw [if_neg hy, if_neg (by simp [hr1])]
            have hgy : 50 ≤ y := not_lt.mp hy
            by_cases hdv : divergence = some DivType.bullish <;>
              simp [e, h4, h1, hreset, hr4, hr1, hgy, hdv, isPositiveReason,
                isNegativeReason]
          · have e : ∀ dv, checkSwingLong BiasType.long_only tf4H tf1H dv =
                { valid := false,
                  reasons := [SwingReason.biasLong, SwingReason.rsi4hInReset x,
                    SwingReason.rsi4hRising, SwingReason.rsi1hNotRising] } := by
              intro dv
              unfold checkSwingLong
              rw [if_neg hb', h4]
              dsimp only
              rw [if_pos hreset]
              dsimp only
              rw [if_neg (by simp [hr4]), h1]
              dsimp only
              rw [if_neg hy, if_pos (by simpa using hr1)]
            simp [e, h4, h1, hr1, isPositiveReason, isNegativeReason]
    · have e : ∀ dv, checkSwingLong BiasType.long_only tf4H tf1H dv =
          { valid := false,
            reasons := [SwingReason.biasLong, SwingReason.rsi4hInReset x,
              SwingReason.rsi4hNotRising] } := by
        intro dv
        unfold checkSwingLong
        rw [if_neg hb', h4]
        dsimp only
        rw [if_pos hreset]
        dsimp only
        rw [if_pos (by simpa using hr4)]
      simp [e, h4, hr4, isPositiveReason, isNegativeReason]
  · by_cases hcross : 45 < x ∧ x < 55 ∧ tf4H.rsi14Rising = true
    · rcases h1 : tf1H.rsi14 with _ | y
      · have e : ∀ dv, checkSwingLong BiasType.long_only tf4H tf1H dv =
            { valid := false,
              reasons := [SwingReason.biasLong, SwingReason.rsi4hCrossedAbove x,
                SwingReason.rsi4hRising, SwingReason.rsi1hBelow none] } := by
          intro dv
          unfold checkSwingLong
          rw [if_neg hb', h4]
          dsimp only
          rw [if_neg hreset, if_pos hcross]
          dsimp only
          rw [if_neg (by simp [hcross.2.2]), h1]
        simp [e, h4, h1, isPositiveReason, isNegativeReason]
      · by_cases hy : y < 50
        · have e : ∀ dv, checkSwingLong BiasType.long_only tf4H tf1H dv =
              { valid := false,
                reasons := [SwingReason.biasLong, SwingReason.rsi4hCrossedAbove x,
                  SwingReason.rsi4hRising, SwingReason.rsi1hBelow (some y)] } := by
            intro dv
            unfold checkSwingLong
            rw [if_neg hb', h4]
            dsimp only
            rw [if_neg hreset, if_pos hcross]
            dsimp only
            rw [if_neg (by simp [hcross.2.2]), h1]
            dsimp only
            rw [if_pos hy]
          have hny : ¬ 50 ≤ y := not_le.mpr hy
          simp [e, h4, h1, hny, isPositiveReason, isNegativeReason]
        · by_cases hr1 : tf1H.rsi14Rising = true
          · have e : ∀ dv, checkSwingLong BiasType.long_only tf4H tf1H dv =
                { valid := true,
                  reasons := [SwingReason.biasLong, SwingReason.rsi4hCrossedAbove x,
                    SwingReason.rsi4hRising, SwingReason.rsi1hOkRising y] ++
                    (if dv = some DivType.bullish then [SwingReason.aPlusBullishDiv]
                     else []) } := by
              intro dv
              unfold checkSwingLong
              rw [if_neg hb', h4]
              dsimp only
              rw [if_neg hreset, if_pos hcross]
              dsimp only
              rw [if_neg (by simp [hcross.2.2]), h1]
              dsimp only
              rw [if_neg hy, if_neg (by simp [hr1])]
            have hgy : 50 ≤ y := not_lt.mp hy
            by_cases hdv : divergence = some DivType.bullish <;>
              simp [e, h4, h1, hreset, hcross, hcross.2.2, hr1, hgy, hdv,
                isPositiveReason, isNegativeReason]
          · have e : ∀ dv, checkSwingLong BiasType.long_only tf4H tf1H dv =
                { valid := false,
                  reasons := [SwingReason.biasLong, SwingReason.rsi4hCrossedAbove x,
                    SwingReason.rsi4hRising, SwingReason.rsi1hNotRising] } := by
              intro dv
              unfold checkSwingLong
              rw [if_neg hb', h4]
              dsimp only
              rw [if_neg hreset, if_pos hcross]
              dsimp only
              rw [if_neg (by simp [hcross.2.2]), h1]
              dsimp only
              rw [if_neg hy, if_pos (by simpa using hr1)]
            simp [e, h4, h1, hr1, isPositiveReason, isNegativeReason]
    · have e : ∀ dv, checkSwingLong BiasType.long_only tf4H tf1H dv =
          { valid := false,
            reasons := [SwingReason.biasLong, SwingReason.rsi4hNotReset x] } := by
        intro dv
        unfold checkSwingLong
        rw [if_neg hb', h4]
        dsimp only
        rw [if_neg hreset, if_neg hcross]
      simp only [e, h4]
      refine ⟨?_, by simp, ?_, by simp, trivial⟩
      · simp only [Option.some.injEq]
        constructor
        · intro h
          cases h
        · rintro ⟨-, ⟨x1, hx1, hx1d⟩, -, -⟩
          cases hx1
          exact absurd hx1d (by tauto)
      · intro hvF
        refine ⟨?_, SwingReason.rsi4hNotReset x, by simp, by simp [isNegativeReason]⟩
        intro a ha
        simp at ha
        subst ha
        simp [isPositiveReason]

/-- Witness for C5: on a snapshot pair passing every gate with a bullish
divergence, the verdict is valid and carries the bonus reason. -/
theorem checkSwingLong_characterization_witness :
    (checkSwingLong BiasType.long_only tfFourExample tfOneExample
      (some DivType.bullish)).valid = true ∧
    SwingReason.aPlusBullishDiv ∈
      (checkSwingLong BiasType.long_only tfFourExample tfOneExample
        (some DivType.bullish)).reasons := by
  have hv := (checkSwingLong_characterization BiasType.long_only tfFourExample
      tfOneExample (some DivType.bullish)).1.mpr
    ⟨rfl, ⟨40, rfl, Or.inl ⟨by norm_num, by norm_num⟩⟩, rfl,
      ⟨55, rfl, by norm_num, rfl⟩⟩
  exact ⟨hv, (checkSwingLong_characterization BiasType.long_only tfFourExample
      tfOneExample (some DivType.bullish)).2.2.2.1.mpr ⟨hv, rfl⟩⟩

/-- C6 counterexample: with `lookback = 0` the code takes `slice(-0)`, i.e.
the entire series, and reports a bearish divergence on this 13-candle input,
although the claim's reading ("restrict to the last lookback points") finds
no local highs in the empty restriction and so demands a null result. -/
theorem detectDivergence_lookback_zero_cex :
    detectDivergence divergenceCloses divergenceRSI 0 = some DivType.bearish ∧
    ¬ bearishDivergenceSpec divergenceCloses divergenceRSI 0 ∧
    ¬ bullishDivergenceSpec divergenceCloses divergenceRSI 0 := by
  refine ⟨by decide, by decide, by decide⟩

/-- C6 (amended): for every `lookback ≥ 1`, `detectDivergence` returns null
when either series is shorter than `lookback`; otherwise, over the last
`lookback` points, it returns bearish exactly under the claim's bearish
condition, bullish exactly when the bearish condition fails and the mirror
bullish condition holds, and null exactly when neither holds.  (For
`lookback = 0` the code inspects the whole series — JavaScript `slice(-0)` —
rather than the last zero points.) -/
theorem detectDivergence_characterization (closes rsiValues : List ℚ)
    (lookback : ℕ) (hlb : 1 ≤ lookback) :
    (closes.length < lookback ∨ rsiValues.length < lookback →
      detectDivergence closes rsiValues lookback = none) ∧
    (lookback ≤ closes.length → lookback ≤ rsiValues.length →
      ((detectDivergence closes rsiValues lookback = some DivType.bearish ↔
        bearishDivergenceSpec closes rsiValues lookback) ∧
       (detectDivergence closes rsiValues lookback = some DivType.bullish ↔
        ¬ bearishDivergenceSpec closes rsiValues lookback ∧
        bullishDivergenceSpec closes rsiValues lookback) ∧
       (detectDivergence closes rsiValues lookback = none ↔
        ¬ bearishDivergenceSpec closes rsiValues lookback ∧
        ¬ bullishDivergenceSpec closes rsiValues lookback))) := by
  have hslice : ∀ l : List ℚ, jsSliceNeg l lookback = l.drop (l.length - lookback) := by
    intro l
    unfold jsSliceNeg
    rw [if_neg (by omega)]
  constructor
  · intro h
    unfold detectDivergence
    rw [if_pos h]
  · intro h1 h2
    have hnot : ¬ (closes.length < lookback ∨ rsiValues.length < lookback) := by
      omega
    simp only [detectDivergence, bearishDivergenceSpec, bullishDivergenceSpec,
      hslice, if_neg hnot]
    split_ifs with hbear hbull
    · exact ⟨iff_of_true rfl hbear,
        iff_of_false (by simp) (fun h => h.1 hbear),
        iff_of_false (by simp) (fun h => h.1 hbear)⟩
    · exact ⟨iff_of_false (by simp) hbear,
        iff_of_true rfl ⟨hbear, hbull⟩,
        iff_of_false (by simp) (fun h => h.2 hbull)⟩
    · exact ⟨iff_of_false (by simp) hbear,
        iff_of_false (by simp) (fun h => hbull h.2),
        iff_of_true rfl ⟨hbear, hbull⟩⟩

/-- Witness for the amended C6 at `lookback = 13` on the 13-candle bearish
example: the detector fires bearish and the claim's bearish condition holds. -/
theorem detectDivergence_characterization_witness :
    detectDivergence divergenceCloses divergenceRSI 13 = some DivType.bearish ∧
    bearishDivergenceSpec divergenceCloses divergenceRSI 13 := by
  have hd : detectDivergence divergenceCloses divergenceRSI 13 =
      some DivType.bearish := by decide
  exact ⟨hd, (((detectDivergence_characterization divergenceCloses divergenceRSI 13
    (by norm_num)).2 (by decide) (by decide)).1).mp hd⟩

theorem confluence_foldl (crypto : RSIData) (rsiPeriod : ℕ) (l : List String) :
    ∀ acc : ℕ × ℕ × ℕ,
      l.foldl (confluenceStep crypto rsiPeriod) acc =
        (acc.1 + l.countP (confluenceOversold crypto rsiPeriod),
         acc.2.1 + l.countP (confluenceOverbought crypto rsiPeriod),
         acc.2.2 + l.countP (fun tf => (readRSI crypto tf rsiPeriod).isSome)) := by
  induction l with
  | nil => intro acc; simp
  | cons tf t ih =>
    intro acc
    rw [List.foldl_cons, ih]
    rcases h : readRSI crypto tf rsiPeriod with _ | v
    · simp [confluenceStep, confluenceOversold, confluenceOverbought,
        List.countP_cons, h]
    · by_cases h30 : v < 30
      · have hno70 : ¬ (70 : ℚ) < v := by linarith
        simp only [confluenceStep, confluenceOversold, confluenceOverbought,
          List.countP_cons, h, if_pos h30]
        simp [h30, hno70]
        omega
      · by_cases h70 : (70 : ℚ) < v
        · simp only [confluenceStep, confluenceOversold, confluenceOverbought,
            List.countP_cons, h, if_neg h30, if_pos h70]
          simp [h30, h70]
          omega
        · simp only [confluenceStep, confluenceOversold, confluenceOverbought,
            List.countP_cons, h, if_neg h30, if_neg h70]
          simp [h30, h70]
          omega

theorem countP_add_countP_le (p q r : String → Bool) (l : List String)
    (h : ∀ a, (p a = true → r a = true) ∧ (q a = true → r a = true) ∧
      ¬(p a = true ∧ q a = true)) :
    l.countP p + l.countP q ≤ l.countP r := by
  induction l with
  | nil => simp
  | cons a t ih =>
    simp only [List.countP_cons]
    rcases h a with ⟨hp, hq, hpq⟩
    by_cases hpa : p a = true
    · have hqa : ¬ q a = true := fun hqa => hpq ⟨hpa, hqa⟩
      simp [hpa, hqa, hp hpa]
      omega
    · by_cases hqa : q a = true
      · simp [hpa, hqa, hq hqa]
        omega
      · simp [hpa, hqa]
        omega

theorem jsRound_ratio_bounds (a b n : ℕ) (h1 : a ≤ n) (h2 : b ≤ n) (hn : 0 < n) :
    -100 ≤ jsRound ((((a : ℤ) - (b : ℤ) : ℤ) : ℚ) / (n : ℚ) * 100) ∧
    jsRound ((((a : ℤ) - (b : ℤ) : ℤ) : ℚ) / (n : ℚ) * 100) ≤ 100 := by
  have hnq : (0 : ℚ) < (n : ℚ) := by exact_mod_cast hn
  have haq : (a : ℚ) ≤ (n : ℚ) := by exact_mod_cast h1
  have hbq : (b : ℚ) ≤ (n : ℚ) := by exact_mod_cast h2
  have ha0 : (0 : ℚ) ≤ (a : ℚ) := by positivity
  have hb0 : (0 : ℚ) ≤ (b : ℚ) := by positivity
  have hcast : ((((a : ℤ) - (b : ℤ) : ℤ) : ℚ)) = (a : ℚ) - (b : ℚ) := by push_cast; ring
  rw [hcast]
  have hub : ((a : ℚ) - (b : ℚ)) / (n : ℚ) ≤ 1 := by
    rw [div_le_one hnq]
    linarith
  have hlb : (-1 : ℚ) ≤ ((a : ℚ) - (b : ℚ)) / (n : ℚ) := by
    rw [le_div_iff hnq]
    linarith
  constructor
  · rw [jsRound]
    rw [Int.le_floor]
    push_cast
    nlinarith
  · rw [jsRound]
    calc ⌊((a : ℚ) - (b : ℚ)) / (n : ℚ) * 100 + 1 / 2⌋ ≤ ⌊(201 : ℚ) / 2⌋ := by
          apply Int.floor_le_floor
          nlinarith
      _ = 100 := by norm_num

/-- C7: `calculateConfluence` counts, over the given timeframes, the present
readings below 30 (oversold) and above 70 (overbought), which are mutually
exclusive per timeframe so their sum never exceeds the valid count; the score
is the rounded percentage of the net count over the valid count, 0 with no
valid reading, and always in `[-100, 100]`; the signal applies the buy-side
thresholds before the sell-side ones; and the `{25, 28, 72}` example yields
counts 2 and 1, score 33 and signal buy. -/
theorem calculateConfluence_characterization (crypto : RSIData) (rsiPeriod : ℕ)
    (timeframes : List String) :
    ((calculateConfluence crypto rsiPeriod timeframes).oversoldCount =
      timeframes.countP (confluenceOversold crypto rsiPeriod) ∧
    (calculateConfluence crypto rsiPeriod timeframes).overboughtCount =
      timeframes.countP (confluenceOverbought crypto rsiPeriod) ∧
    (calculateConfluence crypto rsiPeriod timeframes).totalTimeframes =
      timeframes.countP (fun tf => (readRSI crypto tf rsiPeriod).isSome) ∧
    (calculateConfluence crypto rsiPeriod timeframes).oversoldCount +
      (calculateConfluence crypto rsiPeriod timeframes).overboughtCount ≤
      (calculateConfluence crypto rsiPeriod timeframes).totalTimeframes ∧
    ((calculateConfluence crypto rsiPeriod timeframes).totalTimeframes = 0 →
      (calculateConfluence crypto rsiPeriod timeframes).score = 0) ∧
    (0 < (calculateConfluence crypto rsiPeriod timeframes).totalTimeframes →
      (calculateConfluence crypto rsiPeriod timeframes).score =
        jsRound

          (((((calculateConfluence crypto rsiPeriod timeframes).oversoldCount : ℤ) -
            ((calculateConfluence crypto rsiPeriod timeframes).overboughtCount : ℤ) : ℤ) : ℚ) /
            ((calculateConfluence crypto rsiPeriod timeframes).totalTimeframes : ℚ) * 100)) ∧
    -100 ≤ (calculateConfluence crypto rsiPeriod timeframes).score ∧
    (calculateConfluence crypto rsiPeriod timeframes).score ≤ 100 ∧
    (calculateConfluence crypto rsiPeriod timeframes).signal =
      (if 3 ≤ (calculateConfluence crypto rsiPeriod timeframes).oversoldCount then
        ConfSignal.strong_buy
       else if 2 ≤ (calculateConfluence crypto rsiPeriod timeframes).oversoldCount then
        ConfSignal.buy
       else if 3 ≤ (calculateConfluence crypto rsiPeriod timeframes).overboughtCount then
        ConfSignal.strong_sell
       else if 2 ≤ (calculateConfluence crypto rsiPeriod timeframes).overboughtCount then
        ConfSignal.sell
       else ConfSignal.neutral)) ∧
    ((calculateConfluence exampleCrypto 14 ["1h", "4h", "1d"]).oversoldCount = 2 ∧
     (calculateConfluence exampleCrypto 14 ["1h", "4h", "1d"]).overboughtCount = 1 ∧
     (calculateConfluence exampleCrypto 14 ["1h", "4h", "1d"]).totalTimeframes = 3 ∧
     (calculateConfluence exampleCrypto 14 ["1h", "4h", "1d"]).score = 33 ∧
     (calculateConfluence exampleCrypto 14 ["1h", "4h", "1d"]).signal = ConfSignal.buy) := by
  have hc : timeframes.foldl (confluenceStep crypto rsiPeriod) (0, 0, 0) =
      (timeframes.countP (confluenceOversold crypto rsiPeriod),
       timeframes.countP (confluenceOverbought crypto rsiPeriod),
       timeframes.countP (fun tf => (readRSI crypto tf rsiPeriod).isSome)) := by
    rw [confluence_foldl]
    simp
  have hle : timeframes.countP (confluenceOversold crypto rsiPeriod) +
      timeframes.countP (confluenceOverbought crypto rsiPeriod) ≤
      timeframes.countP (fun tf => (readRSI crypto tf rsiPeriod).isSome) := by
    apply countP_add_countP_le
    intro tf
    unfold confluenceOversold confluenceOverbought
    rcases h : readRSI crypto tf rsiPeriod with _ | v
    · simp
    · refine ⟨fun _ => by simp, fun _ => by simp, ?_⟩
      rintro ⟨h1, h2⟩
      simp only [decide_eq_true_eq] at h1 h2
      linarith
  have hfold : calculateConfluence crypto rsiPeriod timeframes =
      { oversoldCount := timeframes.countP (confluenceOversold crypto rsiPeriod),
        overboughtCount := timeframes.countP (confluenceOverbought crypto rsiPeriod),
        totalTimeframes :=
          timeframes.countP (fun tf => (readRSI crypto tf rsiPeriod).isSome),
        signal :=
          if 3 ≤ timeframes.countP (confluenceOversold crypto rsiPeriod) then
            ConfSignal.strong_buy
          else if 2 ≤ timeframes.countP (confluenceOversold crypto rsiPeriod) then
            ConfSignal.buy
          else if 3 ≤ timeframes.countP (confluenceOverbought crypto rsiPeriod) then
            ConfSignal.strong_sell
          else if 2 ≤ timeframes.countP (confluenceOverbought crypto rsiPeriod) then
            ConfSignal.sell
          else ConfSignal.neutral,
        score :=
          if 0 < timeframes.countP (fun tf => (readRSI crypto tf rsiPeriod).isSome) then
            jsRound
              ((((timeframes.countP (confluenceOversold crypto rsiPeriod) : ℤ) -
                (timeframes.countP (confluenceOverbought crypto rsiPeriod) : ℤ) : ℤ) : ℚ) /
                (timeframes.countP (fun tf => (readRSI crypto tf rsiPeriod).isSome) : ℚ) *
                100)
          else 0 } := by
    unfold calculateConfluence
    rw [hc]
  refine ⟨⟨?_, ?_, ?_, ?_, ?_, ?_, ?_, ?_, ?_⟩, ?_⟩
  · rw [hfold]
  · rw [hfold]
  · rw [hfold]
  · rw [hfold]
    exact hle
  · rw [hfold]
    intro h0
    dsimp only at h0 ⊢
    rw [if_neg (by omega)]
  · rw [hfold]
    intro hpos
    dsimp only at hpos ⊢
    rw [if_pos hpos]
  · rw [hfold]
    dsimp only
    split_ifs with hpos
    · exact (jsRound_ratio_bounds _ _ _ (le_trans (Nat.le_add_right _ _) hle)
        (le_trans (Nat.le_add_left _ _) hle) hpos).1
    · norm_num
  · rw [hfold]
    dsimp only
    split_ifs with hpos
    · exact (jsRound_ratio_bounds _ _ _ (le_trans (Nat.le_add_right _ _) hle)
        (le_trans (Nat.le_add_left _ _) hle) hpos).2
    · norm_num
  · rw [hfold]
  · have hex : calculateConfluence exampleCrypto 14 ["1h", "4h", "1d"] =
        { oversoldCount := 2, overboughtCount := 1, totalTimeframes := 3,
          signal := ConfSignal.buy, score := 33 } := by
      have hfold3 : (["1h", "4h", "1d"] : List String).foldl
          (confluenceStep exampleCrypto 14) (0, 0, 0) = (2, 1, 3) := by
        decide
      unfold calculateConfluence
      rw [hfold3]
      norm_num [jsRound, ConfluenceScore.mk.injEq]
    rw [hex]
    exact ⟨rfl, rfl, rfl, rfl, rfl⟩

theorem filterMap_length_eq_filter_isSome (f : ℕ → Option BacktestSignal)
    (l : List ℕ) :
    (l.filterMap f).length = (l.filter fun a => (f a).isSome).length := by
  induction l with
  | nil => rfl
  | cons a t ih =>
    rcases h : f a with _ | b <;>
      simp [List.filterMap_cons, List.filter_cons, h, ih]

theorem backtestStep_isSome (data : List (ℤ × ℚ)) (rsiValues : List ℚ)
    (rsiPeriod : ℕ) (oversoldThreshold overboughtThreshold : ℚ)
    (config : BtConfig) (i : ℕ) :
    (backtestStep data rsiValues rsiPeriod oversoldThreshold overboughtThreshold
      config i).isSome =
    crossesThreshold data rsiValues rsiPeriod oversoldThreshold overboughtThreshold
      config i := by
  unfold backtestStep crossesThreshold
  by_cases hg : rsiPeriod ≤ i ∧
      (i : ℤ) < (data.length : ℤ) - ⌈config.candlesFor24h⌉ - 1
  · rw [if_pos hg]
    rcases h : rsiValues.get? (i - rsiPeriod) with _ | rsi
    · simp [hg]
    · by_cases hcross : rsi < oversoldThreshold ∨ overboughtThreshold < rsi
      · simp [hg, hcross]
      · simp [hg, hcross]
  · rw [if_neg hg]
    simp [hg]

theorem filter_sigtype_partition (sigs : List BacktestSignal) :
    (sigs.filter fun s => decide (s.type = SigType.oversold)).length +
    (sigs.filter fun s => decide (s.type = SigType.overbought)).length =
    sigs.length := by
  induction sigs with
  | nil => rfl
  | cons s t ih =>
    rcases hs : s.type <;> simp [List.filter_cons, hs] <;> omega

theorem winRatio_bounds (l : List ℚ) (c : ℚ → Bool) (h : 0 < l.length) :
    0 ≤ ((l.filter c).length : ℚ) / (l.length : ℚ) * 100 ∧
    ((l.filter c).length : ℚ) / (l.length : ℚ) * 100 ≤ 100 := by
  have hl : (0 : ℚ) < (l.length : ℚ) := by exact_mod_cast h
  have hle : ((l.filter c).length : ℚ) ≤ (l.length : ℚ) := by
    exact_mod_cast List.length_filter_le c l
  have hnn : (0 : ℚ) ≤ ((l.filter c).length : ℚ) := by positivity
  constructor
  · positivity
  · have hd : ((l.filter c).length : ℚ) / (l.length : ℚ) ≤ 1 := (div_le_one hl).mpr hle
    nlinarith

theorem calcStats_winRates_in_range (sigs : List BacktestSignal) (e : Bool) :
    (0 ≤ (calcStats sigs e).winRate1h ∧ (calcStats sigs e).winRate1h ≤ 100) ∧
    (0 ≤ (calcStats sigs e).winRate4h ∧ (calcStats sigs e).winRate4h ≤ 100) ∧
    (0 ≤ (calcStats sigs e).winRate24h ∧ (calcStats sigs e).winRate24h ≤ 100) := by
  by_cases h0 : sigs.length = 0
  · unfold calcStats
    rw [if_pos h0]
    norm_num
  · unfold calcStats
    rw [if_neg h0]
    dsimp only
    refine ⟨?_, ?_, ?_⟩
    · by_cases h1 : 0 < (sigs.filterMap fun s => s.return1h).length
      · rw [if_pos h1]
        exact winRatio_bounds _ _ h1
      · rw [if_neg h1]
        norm_num
    · by_cases h4 : 0 < (sigs.filterMap fun s => s.return4h).length
      · rw [if_pos h4]
        exact winRatio_bounds _ _ h4
      · rw [if_neg h4]
        norm_num
    · apply winRatio_bounds
      simp only [List.length_map]
      omega

theorem calcStats_count (sigs : List BacktestSignal) (e : Bool) :
    (calcStats sigs e).count = sigs.length := by
  by_cases h0 : sigs.length = 0
  · unfold calcStats
    rw [if_pos h0]
    simp [h0]
  · unfold calcStats
    rw [if_neg h0]

/-- C9: for every input processed by `runBacktest` (any data, timeframe and
thresholds), all six win-rate fields lie in `[0, 100]`, and the oversold and
overbought signal counts sum to the number of scanned candles whose RSI
value crossed a threshold (below the oversold threshold or above the
overbought threshold) — this holds for every timeframe configuration. -/
theorem runBacktest_winRates_and_count (data : List (ℤ × ℚ)) (timeframe : String)
    (rsiPeriod : ℕ) (oversoldThreshold overboughtThreshold : ℚ) :
    (runBacktest data timeframe rsiPeriod oversoldThreshold
      overboughtThreshold).elim True fun result =>
        ((0 ≤ result.oversoldStats.winRate1h ∧ result.oversoldStats.winRate1h ≤ 100) ∧
         (0 ≤ result.oversoldStats.winRate4h ∧ result.oversoldStats.winRate4h ≤ 100) ∧
         (0 ≤ result.oversoldStats.winRate24h ∧ result.oversoldStats.winRate24h ≤ 100)) ∧
        ((0 ≤ result.overboughtStats.winRate1h ∧ result.overboughtStats.winRate1h ≤ 100) ∧
         (0 ≤ result.overboughtStats.winRate4h ∧ result.overboughtStats.winRate4h ≤ 100) ∧
         (0 ≤ result.overboughtStats.winRate24h ∧ result.overboughtStats.winRate24h ≤ 100)) ∧
        ∃ config, intervalMap timeframe = some config ∧
          result.oversoldStats.count + result.overboughtStats.count =
            thresholdCrossCount data
              (calculateRSIArray (data.map fun d => d.2) rsiPeriod) rsiPeriod
              oversoldThreshold overboughtThreshold config := by
  unfold runBacktest
  rcases hm : intervalMap timeframe with _ | config
  · exact trivial
  · dsimp only
    by_cases hlen : data.length < rsiPeriod + 50
    · rw [if_pos hlen]
      exact trivial
    · rw [if_neg hlen]
      dsimp only [Option.elim]
      refine ⟨calcStats_winRates_in_range _ _, calcStats_winRates_in_range _ _,
        config, rfl, ?_⟩
      rw [calcStats_count, calcStats_count, filter_sigtype_partition]
      unfold backtestSignals thresholdCrossCount
      rw [filterMap_length_eq_filter_isSome]
      congr 1
      apply List.filter_congr
      intro i hi
      exact backtestStep_isSome data _ rsiPeriod oversoldThreshold
        overboughtThreshold config i
